import Mathlib

/-!
Verification of the Illustria weather API core (`src/app.py`): snapshot
provisioning (`ensure_db_present`, `connect`), the fetcher
(`_download_to_file`), the validator (`_looks_like_sqlite`), and the query
layer (`get_city`, `nearest_city`, `forecast`, `list_cities`,
`cities_by_continent`).  Python semantics is embedded shallowly: byte strings
become `List Nat`, Python `int` becomes `Int`, fallible operations return
`Except`, and the file-system / network environment is passed explicitly.
-/

namespace Illustria

/- ================================================================
   Character/string helpers shared by several embeddings.
   Python `str.lower()` restricted to ASCII (all strings compared in the
   source are ASCII), and substring containment (Python `in` on `str`).
   ================================================================ -/

/-- ASCII lower-casing of one character, as Python `str.lower()` acts on
the ASCII-only strings the source compares. -/
def lowerChar (c : Char) : Char :=
  if 'A' ≤ c ∧ c ≤ 'Z' then Char.ofNat (c.toNat + 32) else c

/-- ASCII lower-casing of a character list. -/
def lowerChars (cs : List Char) : List Char := cs.map lowerChar

/-- Does `pre` occur at the head of `cs`?  (Helper for substring search.) -/
def startsWith : List Char → List Char → Bool
  | [], _ => true
  | _ :: _, [] => false
  | p :: ps, c :: cs => p == c && startsWith ps cs

/-- Python `needle in haystack` on character lists: `needle` occurs
contiguously somewhere in `haystack`. -/
def containsSub (haystack needle : List Char) : Bool :=
  match haystack with
  | [] => startsWith needle []
  | _ :: rest => startsWith needle haystack || containsSub rest needle

/-- Python ``needle in haystack`` on strings. -/
def strContains (haystack needle : String) : Bool :=
  containsSub haystack.data needle.data

/-- Python `str.lower()` on an ASCII string. -/
def strLower (s : String) : String := ⟨lowerChars s.data⟩

/- ================================================================
   `slot_index` (src/app.py line 174)

       def slot_index(month: int, day: int, tod: int) -> int:
           return ((month - 1) * 30 + (day - 1)) * 3 + tod
   ================================================================ -/

/-- Function `slot_index` from src/app.py: Python integers are unbounded, so `Int`. -/
def slot_index (month day tod : Int) : Int :=
  ((month - 1) * 30 + (day - 1)) * 3 + tod

/- ================================================================
   Data model.  A row of the `cities` table (the columns the embedded
   operations touch; coordinates are modelled as rationals since the
   query layer only compares distances, and nullable columns as
   `Option`).  A row of the `weather` table likewise.
   ================================================================ -/

structure City where
  city_id : Int
  name : String
  lat : Option ℚ
  lon : Option ℚ
  continent : Option String
  country : Option String
  deriving DecidableEq

structure WeatherRow where
  city_id : Int
  slot_index : Int
  month : Int
  day : Int
  tod : Int
  condition : String
  temp_f : ℚ
  wind_mph : ℚ
  prcp_in : ℚ
  cloud_oktas : Int
  deriving DecidableEq

/- ================================================================
   `list_cities` (src/app.py line 291) and `cities_by_continent`
   (line 383).  SQL semantics of the generated statements:
   WHERE filters the table, ORDER BY city_id sorts, then
   `LIMIT ? OFFSET ?` drops `offset` rows and returns at most `limit`.
   The `require_cols` guard and the adaptive elevation projection do
   not affect which rows are returned, so rows are returned as whole
   `City` records.
   ================================================================ -/

/-- Ordering used by `ORDER BY city_id`. -/
def cityLE (a b : City) : Prop := a.city_id ≤ b.city_id

instance : DecidableRel cityLE := fun a b => Int.decLe _ _

instance : IsTotal City cityLE := ⟨fun a b => Int.le_total a.city_id b.city_id⟩

instance : IsTrans City cityLE := ⟨fun _ _ _ h h' => Int.le_trans h h'⟩

/-- Sorting by `ORDER BY city_id` on a result set. -/
def sortByCityId (l : List City) : List City := l.insertionSort cityLE

/-- SQLite `name LIKE '%q%'`: ASCII-case-insensitive containment of `q`
in `name` (for search strings without LIKE metacharacters, which is how
`list_cities` interpolates `q`). -/
def nameLike (name q : String) : Bool :=
  containsSub (lowerChars name.data) (lowerChars q.data)

/-- Clamp `limit = max(1, min(limit, 5000))` (src/app.py lines 297, 389). -/
def clampLimit (limit : Int) : Int := max 1 (min limit 5000)

/-- Clamp `offset = max(0, offset)` (src/app.py lines 298, 390). -/
def clampOffset (offset : Int) : Int := max 0 offset

/-- A paginated response: `{"count": len(rows), "rows": rows}`. -/
structure Page where
  count : Nat
  rows : List City
  deriving DecidableEq

/-- The WHERE clause of `list_cities`: Python `if q:` is true only for a
non-`None`, non-empty string, in which case `name LIKE '%q%'` filters. -/
def listCitiesFiltered (db : List City) (q : Option String) : List City :=
  match q with
  | some s => if s ≠ "" then db.filter (fun c => nameLike c.name s) else db
  | none => db

/-- Endpoint `list_cities` (src/app.py lines 291–331). -/
def list_cities (db : List City) (q : Option String) (limit offset : Int) : Page :=
  let l := clampLimit limit
  let o := clampOffset offset
  let rows := ((sortByCityId (listCitiesFiltered db q)).drop o.toNat).take l.toNat
  ⟨rows.length, rows⟩

/-- Endpoint `cities_by_continent` (src/app.py lines 383–402); SQL `continent = ?`
never matches a NULL continent. -/
def cities_by_continent (db : List City) (continent : String) (limit offset : Int) : Page :=
  let l := clampLimit limit
  let o := clampOffset offset
  let rows :=
    ((sortByCityId (db.filter (fun c => c.continent == some continent))).drop o.toNat).take l.toNat
  ⟨rows.length, rows⟩

/- ================================================================
   `forecast` (src/app.py lines 264–288): SELECT ... FROM weather
   WHERE city_id = ? AND slot_index >= start AND slot_index < end
   ORDER BY slot_index, with start = slot_index(month, day, tod) and
   end = start + days * 3.
   ================================================================ -/

/-- Ordering used by `ORDER BY slot_index`. -/
def rowLE (a b : WeatherRow) : Prop := a.slot_index ≤ b.slot_index

instance : DecidableRel rowLE := fun a b => Int.decLe _ _

instance : IsTotal WeatherRow rowLE := ⟨fun a b => Int.le_total a.slot_index b.slot_index⟩

instance : IsTrans WeatherRow rowLE := ⟨fun _ _ _ h h' => Int.le_trans h h'⟩

/-- Endpoint `forecast` (src/app.py lines 264–288), returning the ordered rows. -/
def forecast (db : List WeatherRow) (city_id month day tod days : Int) : List WeatherRow :=
  let start := slot_index month day tod
  let stop := start + days * 3
  (db.filter
      (fun r => r.city_id == city_id && decide (start ≤ r.slot_index) &&
        decide (r.slot_index < stop))).insertionSort rowLE

/- ================================================================
   Errors raised by the API layer: `HTTPException(status, detail)` and
   the `sqlite3.OperationalError` a malformed statement raises at
   `execute` time.
   ================================================================ -/

inductive ApiError where
  | http (status : Nat) (detail : String)
  | sqlSyntax
  deriving DecidableEq

/- ================================================================
   `nearest_city` (src/app.py lines 216–239): fetch every city with
   non-NULL lat and lon, then a linear scan keeping the strictly
   closest row seen so far (`if best is None or d < best[0]`).  The
   distance itself is `haversine_miles` (lines 164–171), a
   floating-point computation with math.sin/cos/asin/sqrt; it is
   abstracted here as a parameter `dist lat lon rlat rlon` into the
   scan, whose selection logic is what the embedding verifies.
   ================================================================ -/

/-- The `WHERE lat IS NOT NULL AND lon IS NOT NULL` row set. -/
def coordRows (db : List City) : List City :=
  db.filter (fun c => c.lat.isSome && c.lon.isSome)

/-- The scan loop of `nearest_city`: `best` is replaced only on a
strictly smaller distance, so ties keep the first-encountered row. -/
def nearestLoop (dist : City → ℚ) : List City → Option (ℚ × City) → Option (ℚ × City)
  | [], best => best
  | r :: rs, best =>
    match best with
    | none => nearestLoop dist rs (some (dist r, r))
    | some (bd, bc) =>
      if dist r < bd then nearestLoop dist rs (some (dist r, r))
      else nearestLoop dist rs (some (bd, bc))

/-- Distance from the query point to a row, as `nearest_city` passes
`r["lat"], r["lon"]` to `haversine_miles`.  Rows reaching this function
come from `coordRows`, so both options are `some` and the default is
never read. -/
def distToRow (dist : ℚ → ℚ → ℚ → ℚ → ℚ) (lat lon : ℚ) (r : City) : ℚ :=
  dist lat lon (r.lat.getD 0) (r.lon.getD 0)

/-- Endpoint `nearest_city` (src/app.py lines 216–239). -/
def nearest_city (dist : ℚ → ℚ → ℚ → ℚ → ℚ) (db : List City) (lat lon : ℚ) :
    Except ApiError (ℚ × City) :=
  match nearestLoop (distToRow dist lat lon) (coordRows db) none with
  | none => .error (.http 404 "No cities found")
  | some (d, r) => .ok (d, r)

/-- Right-recursive specification of the scan: the first row attaining
the minimum distance (ties prefer the earlier row). -/
def firstMin (dist : City → ℚ) : List City → Option (ℚ × City)
  | [] => none
  | r :: rs =>
    match firstMin dist rs with
    | none => some (dist r, r)
    | some (bd, bc) => if dist r ≤ bd then some (dist r, r) else some (bd, bc)

/- ================================================================
   Fetcher: `_download_to_file` (src/app.py lines 51–58).  A response
   is a status, an advertised content type and the chunk sequence
   `iter_content` yields; the network is a function from URL to
   response.  `raise_for_status` raises on status ≥ 400; otherwise
   every non-empty chunk is written to the file in order.
   ================================================================ -/

structure HttpResponse where
  status : Nat
  contentType : String
  chunks : List (List Nat)
  deriving DecidableEq

/-- Function `_download_to_file` (src/app.py lines 51–58): the bytes written to
`out_path`, or the `requests.HTTPError` from `raise_for_status`. -/
def download_to_file (get : String → HttpResponse) (url : String) :
    Except String (List Nat) :=
  let r := get url
  if 400 ≤ r.status then .error "FetchFailed"
  else .ok ((r.chunks.filter (fun c => !c.isEmpty)).flatten)

/-- Modelled from the spec (§4.1(b), the behavior claim C2 asserts and
the code lacks): on an HTML interstitial the fetcher re-issues the
request to some second URL — necessarily different from the first,
since a confirmation token was appended as a query parameter — and the
bytes written are that second response's stream, not the interstitial
body. -/
def interstitialHandled : Prop :=
  ∀ (get : String → HttpResponse) (url : String),
    (get url).contentType = "text/html" →
    (get url).status < 400 →
    ∃ url₂, url₂ ≠ url ∧
      download_to_file get url = .ok (((get url₂).chunks.filter (fun c => !c.isEmpty)).flatten)

/-- Concrete network for refuting `interstitialHandled`: the artifact
URL answers with an HTML interstitial page; any other URL (hence any
re-issued tokenized URL) answers with the real payload `[9]`. -/
def interstitialNet : String → HttpResponse := fun u =>
  if u = "http://drive/file.zip" then ⟨200, "text/html", [[1, 2, 3]]⟩
  else ⟨200, "application/zip", [[9]]⟩

/- ================================================================
   Validator and Provisioner: `_looks_like_sqlite` (src/app.py lines
   42–48) and `ensure_db_present` (lines 61–104).  The local file is
   `Option (List Nat)` (absent, or its bytes); the remote artifact is
   the member list of the zip the download yields.  Network failures
   during the download itself propagate in the source and are outside
   the states claim C4 quantifies over, so the download is modelled as
   succeeding with the world's archive.
   ================================================================ -/

/-- The 15-byte magic prefix b"SQLite format 3" checked by the validator. -/
def sqliteMagic : List Nat := "SQLite format 3".data.map Char.toNat

/-- Function `_looks_like_sqlite` (src/app.py lines 42–48): read the first 16
bytes and compare the first 15 to the magic; any I/O error (e.g. the
file is absent) yields `False`. -/
def looks_like_sqlite : Option (List Nat) → Bool
  | none => false
  | some content => ((content.take 16).take 15) == sqliteMagic

/-- Python `name.lower().endswith(".db")`. -/
def endsWithDb (name : String) : Bool :=
  startsWith (".db".data.reverse) (lowerChars name.data).reverse

/-- The world `ensure_db_present` runs in: the configured URL, the
current bytes at `DB_PATH` (if the file exists), and the members
(name, bytes) of the zip archive downloading the URL produces. -/
structure EnsureWorld where
  db_url : Option String
  file : Option (List Nat)
  zipMembers : List (String × List Nat)

/-- Outcome of one `ensure_db_present` call: the bytes now at
`DB_PATH`, how many network downloads were performed, and the returned
value or raised error. -/
structure EnsureResult where
  file : Option (List Nat)
  networkCalls : Nat
  result : Except String Unit

/-- The download/extract/replace/validate branch of `ensure_db_present`
(src/app.py lines 76–104), entered with the (possibly deleted) cached
file `file₀` still at `DB_PATH`.  The first zip member whose lowercased
name ends in `.db` is streamed out and atomically moved over `DB_PATH`;
if no member qualifies the error is raised before the replace, leaving
`file₀` in place; afterwards the validator is re-run against `DB_PATH`
and failure raises with the leading bytes. -/
def provisionFresh (zipMembers : List (String × List Nat)) (file₀ : Option (List Nat)) :
    EnsureResult :=
  match zipMembers.filter (fun m => endsWithDb m.1) with
  | [] => ⟨file₀, 1, .error "ZIP did not contain a .db file"⟩
  | m :: _ =>
    if looks_like_sqlite (some m.2) then ⟨some m.2, 1, .ok ()⟩
    else ⟨some m.2, 1, .error "Extracted file is not SQLite"⟩

/-- Function `ensure_db_present` (src/app.py lines 61–104).  Step by step: fail
if no URL is configured; delete a cached file that fails the header
check (so the fresh provision then starts from an absent file); keep a
cached file that passes the header check and strictly exceeds the
1,000,000-byte floor (the source re-runs `_looks_like_sqlite` inside
this second test; on the unchanged file it returns the same value, so
the two reads collapse into the single nested test here); otherwise
download and extract. -/
def ensure_db_present (w : EnsureWorld) : EnsureResult :=
  match w.db_url with
  | none => ⟨w.file, 0, .error "ILLUSTRIA_DB_URL environment variable is not set"⟩
  | some _ =>
    match w.file with
    | some c =>
      if looks_like_sqlite (some c) then
        if 1000000 < c.length then ⟨some c, 0, .ok ()⟩
        else provisionFresh w.zipMembers (some c)
      else provisionFresh w.zipMembers none
    | none => provisionFresh w.zipMembers none

/- ================================================================
   `connect` (src/app.py lines 107–141).  What matters for claim C3 is
   the outcome of each `ensure_db_present` and `_open` attempt, so the
   world records those outcomes; errors carry the exception's message
   (`str(e)`).
   ================================================================ -/

/-- The corruption test of `connect` (src/app.py line 130) on
`msg = str(e).lower()`. -/
def isCorruptionMsg (e : String) : Bool :=
  let msg := strLower e
  strContains msg "malformed" || strContains msg "disk image is malformed" ||
    strContains msg "file is not a database"

/-- Outcomes of the provisioning and open attempts `connect` may make:
the k-th `ensure_db_present` call and the k-th `_open` call. -/
structure ConnWorld where
  ensure₁ : Except String Unit
  ensure₂ : Except String Unit
  open₁ : Except String Unit
  open₂ : Except String Unit

/-- Trace of one `connect` call: the returned/raised outcome, how many
`ensure_db_present` and `_open` attempts ran, and whether the canonical
file was deleted (the `p.unlink()`; a deletion failure is swallowed by
the source's `try/except pass`, so only the attempt is recorded). -/
structure ConnTrace where
  result : Except String Unit
  ensureCalls : Nat
  openCalls : Nat
  deletedDb : Bool

/-- Function `connect` (src/app.py lines 107–141).  Only a corruption-flavoured
`sqlite3.DatabaseError` from the first open triggers the delete,
re-provision and single retry; the retry's own failures propagate. -/
def connect (w : ConnWorld) : ConnTrace :=
  match w.ensure₁ with
  | .error e => ⟨.error e, 1, 0, false⟩
  | .ok () =>
    match w.open₁ with
    | .ok () => ⟨.ok (), 1, 1, false⟩
    | .error e =>
      if isCorruptionMsg e then
        match w.ensure₂ with
        | .error e₂ => ⟨.error e₂, 2, 1, true⟩
        | .ok () =>
          match w.open₂ with
          | .ok () => ⟨.ok (), 2, 2, true⟩
          | .error e₂ => ⟨.error e₂, 2, 2, true⟩
      else ⟨.error e, 1, 1, false⟩

/- ================================================================
   `get_city` (src/app.py lines 189–213).  `sqlite3` prepares the
   statement inside `con.execute(...)`, so a malformed statement raises
   `sqlite3.OperationalError` there, before any row is fetched.  The
   statement's SELECT list is a plain comma-separated list of
   identifier projections; SQLite's result-column grammar for such
   items is `name`, `name alias` (implicit alias) or `name AS alias` —
   anything longer (e.g. two identifiers followed by `AS alias`) is a
   syntax error.  The statement text is embedded verbatim below and a
   tokenizer/checker for exactly this identifier-only fragment decides
   whether preparation succeeds.
   ================================================================ -/

/-- The SQL text of `get_city` (src/app.py lines 196–206), verbatim. -/
def get_city_sql : String :=
  "\n            SELECT city_id, name, lat, lon,\n                   svg_x, svg_y\n                   elev_ft_refined AS elev_ft,\n                   trewartha, biomes,\n                   continent, country,\n                   dist_to_coast_mi, relief_100mi_ft,\n                   terrain_type, terrain_flavor\n            FROM cities\n            WHERE city_id = ?;\n            "

/-- SQL whitespace. -/
def isWs (c : Char) : Bool := c == ' ' || c == '\n' || c == '\t' || c == '\r'

/-- Single-character SQL tokens occurring in the embedded statements. -/
def isSpecial (c : Char) : Bool := c == ',' || c == ';' || c == '?' || c == '='

/-- Tokenizer for the identifier/punctuation fragment of SQL used by
the embedded statements: whitespace separates, each special character
is its own token, other characters accumulate into words (`acc` holds
the current word reversed). -/
def tokenizeAux : List Char → List Char → List (List Char)
  | [], acc => if acc.isEmpty then [] else [acc.reverse]
  | c :: cs, acc =>
    if isWs c then
      if acc.isEmpty then tokenizeAux cs [] else acc.reverse :: tokenizeAux cs []
    else if isSpecial c then
      if acc.isEmpty then [c] :: tokenizeAux cs []
      else acc.reverse :: [c] :: tokenizeAux cs []
    else tokenizeAux cs (c :: acc)

/-- Token list of a SQL string. -/
def sqlTokens (s : String) : List String :=
  (tokenizeAux s.data []).map fun cs => ⟨cs⟩

/-- ASCII upper-casing, for SQL's case-insensitive keywords. -/
def upperChar (c : Char) : Char :=
  if 'a' ≤ c ∧ c ≤ 'z' then Char.ofNat (c.toNat - 32) else c

/-- ASCII upper-casing of a string. -/
def strUpper (s : String) : String := ⟨s.data.map upperChar⟩

/-- Characters of an SQL identifier. -/
def isIdentChar (c : Char) : Bool := c.isAlpha || c.isDigit || c == '_'

/-- The keywords appearing in the embedded statements; none can serve
as an identifier or implicit alias. -/
def isKeyword (t : String) : Bool :=
  let u := strUpper t
  u == "AS" || u == "SELECT" || u == "FROM" || u == "WHERE" || u == "AND" || u == "ORDER" ||
    u == "BY" || u == "LIMIT" || u == "OFFSET"

/-- A plain identifier token. -/
def isName (t : String) : Bool :=
  !t.isEmpty && t.data.all isIdentChar && !isKeyword t

/-- SQLite result-column for the identifier-only projections of the
embedded statements: `name`, `name alias`, or `name AS alias`. -/
def resultColumnOk : List String → Bool
  | [e] => isName e
  | [e, a] => isName e && isName a
  | [e, kw, a] => isName e && strUpper kw == "AS" && isName a
  | _ => false

/-- The comma-separated SELECT list of a statement: tokens strictly
between the leading `SELECT` and the `FROM`. -/
def selectItems (s : String) : List (List String) :=
  (((sqlTokens s).dropWhile (fun t => t ≠ "SELECT")).drop 1 |>.takeWhile
      (fun t => t ≠ "FROM")).splitOn ","

/-- Does the statement's SELECT list parse? -/
def selectListOk (s : String) : Bool := (selectItems s).all resultColumnOk

/-- Endpoint `get_city` (src/app.py lines 189–213): the `require_cols` 501
guard, then `con.execute` of `get_city_sql` (raising
`OperationalError` if the statement does not parse), then the
row-or-404 outcome of a point lookup on `city_id`. -/
def get_city (schema : List String) (db : List City) (cid : Int) : Except ApiError City :=
  if !(["continent", "country", "svg_x", "svg_y"].all (fun c => schema.contains c)) then
    .error (.http 501 "DB is missing columns in 'cities'")
  else if !selectListOk get_city_sql then
    .error .sqlSyntax
  else
    match db.find? (fun c => c.city_id == cid) with
    | none => .error (.http 404 "City not found")
    | some c => .ok c

/-- A schema containing every column `get_city` touches: the claim's
"valid, provisioned snapshot". -/
def fullSchema : List String :=
  ["city_id", "name", "lat", "lon", "svg_x", "svg_y", "elev_ft_refined", "trewartha",
    "biomes", "continent", "country", "dist_to_coast_mi", "relief_100mi_ft",
    "terrain_type", "terrain_flavor"]

end Illustria

/- ================================================================
   Theorems
   ================================================================ -/

namespace Illustria

/-- Helper: the function `connect` never makes more than two provisioning attempts
nor more than two open attempts, whatever the world does. -/
theorem connect_calls_bounded (w : ConnWorld) :
    (connect w).ensureCalls ≤ 2 ∧ (connect w).openCalls ≤ 2 := by
  rcases w with ⟨e₁, e₂, o₁, o₂⟩
  rcases e₁ with e | ⟨⟩ <;> rcases o₁ with f | ⟨⟩ <;>
    rcases e₂ with g | ⟨⟩ <;> rcases o₂ with k | ⟨⟩ <;>
      simp [connect] <;> split <;> simp

/-- C3: if the first open fails with a storage-engine corruption message
("malformed" / "not a database"), `connect` deletes the canonical file,
re-runs provisioning, and retries the open exactly once: the trace shows
the deletion, exactly two provisioning attempts, at most two opens, and
the final outcome is exactly the retry's outcome (a failing second
provision or open propagates); moreover no run of `connect` ever makes
more than two provisioning or open attempts. -/
theorem connect_corruption_single_retry (w : ConnWorld) (e : String)
    (h₁ : w.ensure₁ = .ok ()) (h₂ : w.open₁ = .error e) (hc : isCorruptionMsg e = true) :
    (connect w).deletedDb = true ∧
    (connect w).ensureCalls = 2 ∧
    (connect w).openCalls ≤ 2 ∧
    ((connect w).result = match w.ensure₂ with
      | .error e₂ => Except.error e₂
      | .ok () => w.open₂) ∧
    (∀ w' : ConnWorld, (connect w').ensureCalls ≤ 2 ∧ (connect w').openCalls ≤ 2) := by
  rcases w with ⟨e₁, e₂, o₁, o₂⟩
  dsimp only at h₁ h₂
  subst h₁; subst h₂
  refine ⟨?_, ?_, ?_, ?_, connect_calls_bounded⟩ <;>
    rcases e₂ with g | ⟨⟩ <;> rcases o₂ with k | ⟨⟩ <;> simp [connect, hc]

/-- Witness for C3 at a concrete world: first open fails with
"file is not a database", second provision and open succeed. -/
theorem connect_corruption_single_retry_witness :
    (connect ⟨.ok (), .ok (), .error "file is not a database", .ok ()⟩).deletedDb = true ∧
    (connect ⟨.ok (), .ok (), .error "file is not a database", .ok ()⟩).ensureCalls = 2 := by
  have h := connect_corruption_single_retry
    ⟨.ok (), .ok (), .error "file is not a database", .ok ()⟩
    "file is not a database" rfl rfl (by decide)
  exact ⟨h.1, h.2.1⟩

/-- C1 (the code contradicts the claim): the SELECT list of `get_city`'s
statement is malformed — `svg_y elev_ft_refined AS elev_ft` (a missing
comma after `svg_y`) parses as no result-column form — so `con.execute`
raises `sqlite3.OperationalError` for every city id on every snapshot,
including ids that exist; the endpoint can never answer with the record
or with 404. -/
theorem get_city_sql_syntax_error :
    selectListOk get_city_sql = false ∧
    (∀ (db : List City) (cid : Int), get_city fullSchema db cid = .error .sqlSyntax) ∧
    (⟨1, "Aria", some 0, some 0, some "North", some "Arialand"⟩ : City).city_id = 1 ∧
    get_city fullSchema [⟨1, "Aria", some 0, some 0, some "North", some "Arialand"⟩] 1 =
      .error .sqlSyntax := by
  have h : selectListOk get_city_sql = false := by decide
  have hs : (["continent", "country", "svg_x", "svg_y"].all
      fun c => fullSchema.contains c) = true := by decide
  exact ⟨h, fun db cid => by simp [get_city, hs, h]; decide, rfl,
    by simp [get_city, hs, h]; decide⟩

/-- C2 is false of the code: `_download_to_file` never inspects the
content type nor re-issues a request.  At a network whose artifact URL
answers with an HTML interstitial and where every other URL (hence any
token-bearing re-issued URL) answers with the payload `[9]`, the bytes
written are the interstitial body itself, not any second response. -/
theorem download_ignores_interstitial : ¬ interstitialHandled := by
  intro h
  obtain ⟨u₂, hne, heq⟩ := h interstitialNet "http://drive/file.zip" (by decide) (by decide)
  have h1 : download_to_file interstitialNet "http://drive/file.zip" = .ok [1, 2, 3] := by
    unfold download_to_file interstitialNet
    rw [if_pos rfl]
    norm_num
  have h2 : interstitialNet u₂ = ⟨200, "application/zip", [[9]]⟩ := by
    unfold interstitialNet
    rw [if_neg hne]
  rw [h1, h2] at heq
  simp at heq

/-- C2 as amended: the Fetcher streams the first response unchanged —
whatever its advertised content type, a success-status response has its
(non-empty) chunks concatenated into the output file, and a non-success
status raises; no token is parsed and no second request is issued. -/
theorem download_streams_first_response (get : String → HttpResponse) (url : String) :
    ((get url).status < 400 →
        download_to_file get url =
          .ok (((get url).chunks.filter (fun c => !c.isEmpty)).flatten)) ∧
    (400 ≤ (get url).status → download_to_file get url = .error "FetchFailed") := by
  refine ⟨fun h => ?_, fun h => ?_⟩
  · unfold download_to_file
    rw [if_neg (by omega)]
  · unfold download_to_file
    rw [if_pos h]

/-- Witness for C2's amended theorem: the interstitial network's HTML
body is written out as-is. -/
theorem download_streams_first_response_witness :
    download_to_file interstitialNet "http://drive/file.zip" = .ok [1, 2, 3] := by
  have h := (download_streams_first_response interstitialNet "http://drive/file.zip").1 (by decide)
  rw [h]
  rfl

/-- Helper: the valid-cache fast path of `ensure_db_present` — header
match plus size floor means no download and no change. -/
theorem ensure_valid_cache (w : EnsureWorld) (u : String) (c : List Nat)
    (hurl : w.db_url = some u) (hfile : w.file = some c)
    (hmagic : looks_like_sqlite (some c) = true) (hsize : 1000000 < c.length) :
    ensure_db_present w = ⟨some c, 0, .ok ()⟩ := by
  rcases w with ⟨url, file, zip⟩
  dsimp only at hurl hfile
  subst hurl; subst hfile
  simp [ensure_db_present, hmagic, hsize]

/-- Helper: a successful `provisionFresh` downloads once and leaves a
header-valid file. -/
theorem provisionFresh_ok (zip : List (String × List Nat)) (f₀ : Option (List Nat))
    (h : (provisionFresh zip f₀).result = .ok ()) :
    looks_like_sqlite (provisionFresh zip f₀).file = true ∧
    (provisionFresh zip f₀).networkCalls = 1 := by
  unfold provisionFresh at h ⊢
  rcases hz : zip.filter (fun m => endsWithDb m.1) with _ | ⟨m, rest⟩ <;> rw [hz] at h ⊢
  · simp at h
  · by_cases hl : looks_like_sqlite (some m.2) = true
    · simp [hl]
    · simp [hl] at h

/-- Helper: whenever `ensure_db_present` returns successfully, a URL was
configured and the file now at `DB_PATH` passes the header check. -/
theorem ensure_ok_shape (w : EnsureWorld)
    (h : (ensure_db_present w).result = .ok ()) :
    looks_like_sqlite (ensure_db_present w).file = true ∧ w.db_url.isSome = true := by
  rcases w with ⟨url, file, zip⟩
  rcases url with _ | u
  · simp [ensure_db_present] at h
  · refine ⟨?_, rfl⟩
    rcases file with _ | c
    · simp only [ensure_db_present] at h ⊢
      exact (provisionFresh_ok _ _ h).1
    · by_cases hl : looks_like_sqlite (some c) = true
      · by_cases hs : 1000000 < c.length
        · simp [ensure_db_present, hl, hs]
        · simp only [ensure_db_present, hl, if_true, if_neg hs] at h ⊢
          exact (provisionFresh_ok _ _ h).1
      · rw [Bool.not_eq_true] at hl
        simp only [ensure_db_present] at h ⊢
        rw [hl] at h ⊢
        simp only [Bool.false_eq_true, if_false] at h ⊢
        exact (provisionFresh_ok _ _ h).1

/-- C4 as amended: the provisioner `ensure_db_present` is idempotent on a valid cache —
file present, 15-byte magic matches, size strictly above 1,000,000
bytes — returning at once with zero network calls and the file
unchanged; and a second call right after a successful call performs no
network call provided the file the first call left behind exceeds the
size floor (the final validation checks only the header, so success
alone does not guarantee the floor). -/
theorem ensure_idempotent_on_valid_cache (w : EnsureWorld) (u : String) (c : List Nat)
    (hurl : w.db_url = some u) (hfile : w.file = some c)
    (hmagic : looks_like_sqlite (some c) = true) (hsize : 1000000 < c.length) :
    ensure_db_present w = ⟨w.file, 0, .ok ()⟩ ∧
    (∀ w' : EnsureWorld,
        (ensure_db_present w').result = .ok () →
        1000000 < ((ensure_db_present w').file.getD []).length →
        (ensure_db_present { w' with file := (ensure_db_present w').file }).networkCalls = 0) := by
  constructor
  · rw [hfile]
    exact ensure_valid_cache w u c hurl hfile hmagic hsize
  · intro w' hok hlen
    obtain ⟨hlooks, hurl'⟩ := ensure_ok_shape w' hok
    obtain ⟨u', hu'⟩ := Option.isSome_iff_exists.mp hurl'
    rcases hf : (ensure_db_present w').file with _ | bytes
    · rw [hf] at hlooks
      simp [looks_like_sqlite] at hlooks
    · rw [hf] at hlooks hlen
      have hv := ensure_valid_cache { w' with file := some bytes } u' bytes hu' rfl hlooks
        (by simpa using hlen)
      rw [hv]

/-- Witness for C4's amended theorem: a cached 1,000,015-byte file with
the magic header is accepted with zero network calls. -/
theorem ensure_idempotent_on_valid_cache_witness :
    (ensure_db_present ⟨some "https://bucket/illustria.zip",
        some (sqliteMagic ++ List.replicate 1000000 0), []⟩).networkCalls = 0 := by
  have h := ensure_idempotent_on_valid_cache
    ⟨some "https://bucket/illustria.zip", some (sqliteMagic ++ List.replicate 1000000 0), []⟩
    "https://bucket/illustria.zip" (sqliteMagic ++ List.replicate 1000000 0)
    rfl rfl (by decide)
    (by rw [List.length_append, List.length_replicate]; norm_num; decide)
  rw [h.1]

/-- C4's "in particular" clause is false of the code: a first call that
provisions a small (16-byte) header-valid snapshot succeeds, yet the
immediately following call — same world, file as the first call left
it — performs a network download again, because the fast path also
demands the 1,000,000-byte size floor the final validation never
checked. -/
theorem ensure_second_call_refetches :
    (ensure_db_present ⟨some "https://bucket/illustria.zip", none,
        [("illustria.db", sqliteMagic ++ [0])]⟩).result = .ok () ∧
    (ensure_db_present ⟨some "https://bucket/illustria.zip", none,
        [("illustria.db", sqliteMagic ++ [0])]⟩).networkCalls = 1 ∧
    (ensure_db_present ⟨some "https://bucket/illustria.zip",
        (ensure_db_present ⟨some "https://bucket/illustria.zip", none,
          [("illustria.db", sqliteMagic ++ [0])]⟩).file,
        [("illustria.db", sqliteMagic ++ [0])]⟩).networkCalls = 1 := by
  refine ⟨rfl, rfl, rfl⟩

/-- C5: on the nominal domain month∈[1,12], day∈[1,30], tod∈[0,2],
`slot_index` is strictly increasing under lexicographic order on
(month, day, tod), hence injective there; and `slot_index 1 1 0 = 0`,
`slot_index 1 2 0 = 3`, `slot_index 2 1 0 = 90`. -/
theorem slot_index_strictMono_lex
    (m₁ d₁ t₁ m₂ d₂ t₂ : Int)
    (hm₁ : 1 ≤ m₁ ∧ m₁ ≤ 12) (hd₁ : 1 ≤ d₁ ∧ d₁ ≤ 30) (ht₁ : 0 ≤ t₁ ∧ t₁ ≤ 2)
    (hm₂ : 1 ≤ m₂ ∧ m₂ ≤ 12) (hd₂ : 1 ≤ d₂ ∧ d₂ ≤ 30) (ht₂ : 0 ≤ t₂ ∧ t₂ ≤ 2) :
    ((m₁ < m₂ ∨ (m₁ = m₂ ∧ (d₁ < d₂ ∨ (d₁ = d₂ ∧ t₁ < t₂)))) →
        slot_index m₁ d₁ t₁ < slot_index m₂ d₂ t₂) ∧
    (slot_index m₁ d₁ t₁ = slot_index m₂ d₂ t₂ →
        m₁ = m₂ ∧ d₁ = d₂ ∧ t₁ = t₂) ∧
    slot_index 1 1 0 = 0 ∧ slot_index 1 2 0 = 3 ∧ slot_index 2 1 0 = 90 := by
  simp only [slot_index]
  omega

/-- Witness for C5 at the concrete points (1,1,0) < (1,2,0). -/
theorem slot_index_strictMono_lex_witness :
    Illustria.slot_index 1 1 0 < Illustria.slot_index 1 2 0 := by
  have h := slot_index_strictMono_lex 1 1 0 1 2 0
    (by decide) (by decide) (by decide) (by decide) (by decide) (by decide)
  exact h.1 (Or.inr ⟨rfl, Or.inl (by decide)⟩)

/-- C6: the forecast range scan returns exactly the weather rows of the
requested city whose slot index lies in
`[slot_index(month,day,tod), slot_index(month,day,tod) + days*3)` — so
out-of-range portions simply contribute no rows and nothing wraps
around — in strictly ascending slot-index order (no duplicates), given
the schema invariant that (city, slot index) identifies a row. -/
theorem forecast_range_scan (db : List WeatherRow) (cid m d t days : Int)
    (hu : db.Pairwise (fun a b => a.city_id = b.city_id → a.slot_index ≠ b.slot_index)) :
    (∀ r, r ∈ forecast db cid m d t days ↔
        (r ∈ db ∧ r.city_id = cid ∧ slot_index m d t ≤ r.slot_index ∧
          r.slot_index < slot_index m d t + days * 3)) ∧
    (forecast db cid m d t days).Pairwise (fun a b => a.slot_index < b.slot_index) := by
  have hmem : ∀ r, r ∈ forecast db cid m d t days ↔
      (r ∈ db ∧ r.city_id = cid ∧ slot_index m d t ≤ r.slot_index ∧
        r.slot_index < slot_index m d t + days * 3) := by
    intro r
    simp only [forecast]
    rw [(List.perm_insertionSort rowLE _).mem_iff]
    simp [List.mem_filter, and_assoc]
  refine ⟨hmem, ?_⟩
  have hsorted : (forecast db cid m d t days).Pairwise rowLE := by
    simpa [forecast, List.Sorted] using List.sorted_insertionSort rowLE
      (db.filter (fun r => r.city_id == cid && decide (slot_index m d t ≤ r.slot_index) &&
        decide (r.slot_index < slot_index m d t + days * 3)))
  have huniq : (forecast db cid m d t days).Pairwise
      (fun a b => a.city_id = b.city_id → a.slot_index ≠ b.slot_index) := by
    have hfil := List.Pairwise.sublist
      (List.filter_sublist (p := fun r => r.city_id == cid &&
        decide (slot_index m d t ≤ r.slot_index) &&
        decide (r.slot_index < slot_index m d t + days * 3)) db) hu
    simp only [forecast]
    refine ((List.perm_insertionSort rowLE _).pairwise_iff ?_).mpr hfil
    intro x y hxy h hslot
    exact hxy h.symm hslot.symm
  refine (hsorted.and huniq).imp_of_mem ?_
  intro a b ha hb hab
  have hca := ((hmem a).1 ha).2.1
  have hcb := ((hmem b).1 hb).2.1
  exact lt_of_le_of_ne hab.1 (hab.2 (by rw [hca, hcb]))

/-- Witness for C6: a two-row table (given unsorted) for city 1,
requested for one day from (1,1,0); the result is strictly ascending. -/
theorem forecast_range_scan_witness :
    (forecast [⟨1, 1, 1, 1, 1, "clear", 70, 5, 0, 2⟩, ⟨1, 0, 1, 1, 0, "rain", 60, 9, 1, 6⟩]
        1 1 1 0 1).Pairwise (fun a b => a.slot_index < b.slot_index) :=
  (forecast_range_scan
    [⟨1, 1, 1, 1, 1, "clear", 70, 5, 0, 2⟩, ⟨1, 0, 1, 1, 0, "rain", 60, 9, 1, 6⟩]
    1 1 1 0 1 (by decide)).2

/-- C7: on both paginated listings the returned page is exactly the
ordered, filtered rows with `max(0, offset)` rows dropped and at most
`max(1, min(limit, 5000))` rows taken; hence no page exceeds 5000 rows,
`limit=100000` is clamped to 5000 and `offset=-5` to 0. -/
theorem pagination_clamps (db : List City) (q : Option String) (continent : String)
    (limit offset : Int) :
    (list_cities db q limit offset).rows =
      ((sortByCityId (listCitiesFiltered db q)).drop (max 0 offset).toNat).take
        (max 1 (min limit 5000)).toNat ∧
    (cities_by_continent db continent limit offset).rows =
      ((sortByCityId (db.filter (fun c => c.continent == some continent))).drop
        (max 0 offset).toNat).take (max 1 (min limit 5000)).toNat ∧
    (list_cities db q limit offset).rows.length ≤ 5000 ∧
    clampLimit 100000 = 5000 ∧ clampOffset (-5) = 0 := by
  refine ⟨rfl, rfl, ?_, by decide, by decide⟩
  have h1 : clampLimit limit ≤ 5000 := max_le (by norm_num) (min_le_right _ _)
  have h2 : (clampLimit limit).toNat ≤ 5000 := by
    have := Int.toNat_le_toNat h1
    simpa using this
  calc (list_cities db q limit offset).rows.length
      ≤ (clampLimit limit).toNat := by
        simp only [list_cities, List.length_take]
        exact min_le_left _ _
    _ ≤ 5000 := h2

/-- C9: both paginated listings report `count` as the length of the
returned page, not the total matching rows: for every input the count
field equals the page's length, and on a two-city table with `limit=1`
the count is 1 while 2 rows match the (absent) filter. -/
theorem page_count_is_page_length (db : List City) (q : Option String) (continent : String)
    (limit offset : Int) :
    (list_cities db q limit offset).count = (list_cities db q limit offset).rows.length ∧
    (cities_by_continent db continent limit offset).count =
      (cities_by_continent db continent limit offset).rows.length ∧
    (list_cities [⟨1, "Aria", some 0, some 0, some "North", some "Arialand"⟩,
        ⟨2, "Boreal", some 1, some 1, some "North", some "Arialand"⟩] none 1 0).count = 1 ∧
    (listCitiesFiltered [⟨1, "Aria", some 0, some 0, some "North", some "Arialand"⟩,
        ⟨2, "Boreal", some 1, some 1, some "North", some "Arialand"⟩] none).length = 2 :=
  ⟨rfl, rfl, by decide, rfl⟩

/-- C10: an empty search string is falsy in Python, so `list_cities`
with `q = ""` applies no name filter and returns exactly what `q`
absent returns, for every limit and offset. -/
theorem empty_search_is_no_filter (db : List City) (limit offset : Int) :
    list_cities db (some "") limit offset = list_cities db none limit offset := by
  simp [list_cities, listCitiesFiltered]

/-- Helper: running the scan with accumulator `(bd, bc)` keeps the
accumulator unless the remaining rows contain a strictly smaller
first-minimum. -/
theorem nearestLoop_acc (dist : City → ℚ) (l : List City) :
    ∀ bd bc, nearestLoop dist l (some (bd, bc)) =
      match firstMin dist l with
      | none => some (bd, bc)
      | some (d, c) => if d < bd then some (d, c) else some (bd, bc) := by
  induction l with
  | nil => intro bd bc; rfl
  | cons r rs ih =>
    intro bd bc
    show (if dist r < bd then nearestLoop dist rs (some (dist r, r))
        else nearestLoop dist rs (some (bd, bc))) = _
    cases hfm : firstMin dist rs with
    | none =>
      by_cases h : dist r < bd
      · rw [if_pos h, ih, hfm]
        simp only [firstMin, hfm]
        rw [if_pos h]
      · rw [if_neg h, ih, hfm]
        simp only [firstMin, hfm]
        rw [if_neg h]
    | some p =>
      rcases p with ⟨d', c'⟩
      by_cases h : dist r < bd
      · rw [if_pos h, ih, hfm]
        simp only [firstMin, hfm]
        by_cases h2 : dist r ≤ d'
        · have h3 : ¬ d' < dist r := by linarith
          simp [h, h2, h3]
        · have h3 : d' < dist r := by linarith
          have h4 : d' < bd := by linarith
          simp [h2, h3, h4]
      · rw [if_neg h, ih, hfm]
        simp only [firstMin, hfm]
        by_cases h2 : dist r ≤ d'
        · have h3 : ¬ d' < bd := by
            have := le_of_not_lt h
            linarith
          simp [h, h2, h3]
        · simp [h2]

/-- Helper: the function `firstMin` is `none` exactly on the empty row set. -/
theorem firstMin_none_iff (dist : City → ℚ) (l : List City) :
    firstMin dist l = none ↔ l = [] := by
  cases l with
  | nil => simp [firstMin]
  | cons r rs =>
    simp only [firstMin]
    cases hfm : firstMin dist rs with
    | none => simp
    | some p =>
      rcases p with ⟨d', c'⟩
      by_cases h2 : dist r ≤ d' <;> simp [h2]

/-- Helper: when `firstMin` answers `(d, c)`, `d` is `c`'s distance,
it is minimal over the whole row set, and every row strictly before `c`
is strictly farther — `c` is the first row attaining the minimum. -/
theorem firstMin_min (dist : City → ℚ) (l : List City) :
    ∀ (d : ℚ) (c : City), firstMin dist l = some (d, c) →
      d = dist c ∧ (∀ x ∈ l, d ≤ dist x) ∧
      ∃ l₁ l₂, l = l₁ ++ c :: l₂ ∧ ∀ x ∈ l₁, d < dist x := by
  induction l with
  | nil => intro d c h; simp [firstMin] at h
  | cons r rs ih =>
    intro d c h
    simp only [firstMin] at h
    cases hfm : firstMin dist rs with
    | none =>
      rw [hfm] at h
      have hrs : rs = [] := (firstMin_none_iff dist rs).1 hfm
      subst hrs
      obtain ⟨hd, hc⟩ : dist r = d ∧ r = c := by simpa using h
      subst hd
      subst hc
      exact ⟨rfl, by simp, [], [], rfl, by simp⟩
    | some p =>
      rcases p with ⟨d', c'⟩
      rw [hfm] at h
      change (if dist r ≤ d' then some (dist r, r) else some (d', c')) = some (d, c) at h
      obtain ⟨hd', hmin', l₁, l₂, hL, hgt⟩ := ih d' c' hfm
      by_cases h2 : dist r ≤ d'
      · rw [if_pos h2] at h
        obtain ⟨hd, hc⟩ : dist r = d ∧ r = c := by simpa using h
        subst hd
        subst hc
        refine ⟨rfl, ?_, [], rs, rfl, by simp⟩
        intro x hx
        rcases List.mem_cons.1 hx with hx | hx
        · exact le_of_eq (by rw [hx])
        · exact le_trans h2 (hmin' x hx)
      · have h2' : d' < dist r := lt_of_not_le h2
        rw [if_neg h2] at h
        obtain ⟨hd, hc⟩ : d' = d ∧ c' = c := by simpa using h
        subst hd
        subst hc
        refine ⟨hd', ?_, r :: l₁, l₂, by rw [hL, List.cons_append], ?_⟩
        · intro x hx
          rcases List.mem_cons.1 hx with hx | hx
          · rw [hx]
            exact le_of_lt h2'
          · exact hmin' x hx
        · intro x hx
          rcases List.mem_cons.1 hx with hx | hx
          · rw [hx]
            exact h2'
          · exact hgt x hx

/-- Helper: from an empty accumulator the scan computes `firstMin`. -/
theorem nearestLoop_eq_firstMin (dist : City → ℚ) (l : List City) :
    nearestLoop dist l none = firstMin dist l := by
  cases l with
  | nil => rfl
  | cons r rs =>
    show nearestLoop dist rs (some (dist r, r)) = _
    rw [nearestLoop_acc]
    cases hfm : firstMin dist rs with
    | none =>
      simp only [firstMin, hfm]
    | some p =>
      rcases p with ⟨d', c'⟩
      simp only [firstMin, hfm]
      by_cases h2 : dist r ≤ d'
      · have h3 : ¬ d' < dist r := by linarith
        simp [h2, h3]
      · have h3 : d' < dist r := lt_of_not_le h2
        simp [h2, h3]

/-- C8: the endpoint `nearest_city` — with the floating-point haversine computation
(R = 3958.7613 miles) abstracted as the distance parameter `dist` fed
the query point and each row's coordinates — fails with 404 exactly
when no city has both coordinates non-NULL; and when it answers
`(d, c)`, `d` is `c`'s distance to the query point, minimal over all
coordinate-bearing cities, with every city stored before `c` strictly
farther (ties go to the first in storage order). -/
theorem nearest_city_spec (dist : ℚ → ℚ → ℚ → ℚ → ℚ) (db : List City) (lat lon : ℚ) :
    (nearest_city dist db lat lon = .error (.http 404 "No cities found") ↔ coordRows db = []) ∧
    (coordRows db = [] ↔ ∀ x ∈ db, ¬(x.lat.isSome ∧ x.lon.isSome)) ∧
    (∀ (d : ℚ) (c : City), nearest_city dist db lat lon = .ok (d, c) →
      d = distToRow dist lat lon c ∧ c ∈ coordRows db ∧
      (∀ x ∈ coordRows db, d ≤ distToRow dist lat lon x) ∧
      ∃ l₁ l₂, coordRows db = l₁ ++ c :: l₂ ∧ ∀ x ∈ l₁, d < distToRow dist lat lon x) := by
  have hn : nearest_city dist db lat lon =
      match firstMin (distToRow dist lat lon) (coordRows db) with
      | none => Except.error (ApiError.http 404 "No cities found")
      | some (d, r) => Except.ok (d, r) := by
    unfold nearest_city
    rw [nearestLoop_eq_firstMin]
  refine ⟨?_, ?_, ?_⟩
  · rw [hn]
    cases hfm : firstMin (distToRow dist lat lon) (coordRows db) with
    | none =>
      exact ⟨fun _ => (firstMin_none_iff _ _).1 hfm, fun _ => rfl⟩
    | some p =>
      rcases p with ⟨d, c⟩
      constructor
      · intro hcontra
        simp at hcontra
      · intro hnil
        rw [(firstMin_none_iff (distToRow dist lat lon) (coordRows db)).2 hnil] at hfm
        cases hfm
  · rw [coordRows, List.filter_eq_nil_iff]
    constructor
    · intro h x hx hcontra
      have := h x hx
      simp [hcontra.1, hcontra.2] at this
    · intro h x hx
      have := h x hx
      simp only [Bool.and_eq_true, not_and] at this ⊢
      intro hlat
      by_cases hlon : x.lon.isSome = true
      · exact absurd hlon (this hlat)
      · simpa using hlon
  · intro d c h
    rw [hn] at h
    cases hfm : firstMin (distToRow dist lat lon) (coordRows db) with
    | none =>
      rw [hfm] at h
      simp at h
    | some p =>
      rcases p with ⟨d₀, c₀⟩
      rw [hfm] at h
      obtain ⟨hd, hc⟩ : d₀ = d ∧ c₀ = c := by simpa using h
      subst hd
      subst hc
      obtain ⟨h1, h2, l₁, l₂, hL, hgt⟩ := firstMin_min (distToRow dist lat lon) (coordRows db)
        d₀ c₀ hfm
      refine ⟨h1, ?_, h2, l₁, l₂, hL, hgt⟩
      rw [hL]
      exact List.mem_append.mpr (Or.inr (List.mem_cons_self _ _))

/-- Witness for C8 at a singleton table and a constant distance: the
lookup succeeds and the returned city is among the coordinate rows. -/
theorem nearest_city_spec_witness :
    (⟨1, "Aria", some 0, some 0, some "North", some "Arialand"⟩ : City) ∈
      coordRows [⟨1, "Aria", some 0, some 0, some "North", some "Arialand"⟩] :=
  ((nearest_city_spec (fun _ _ _ _ => 0)
      [⟨1, "Aria", some 0, some 0, some "North", some "Arialand"⟩] 0 0).2.2 0
      ⟨1, "Aria", some 0, some 0, some "North", some "Arialand"⟩ rfl).2.1

end Illustria
